import Mathlib

/-!
Shallow embedding of a Node/Express CRUD API over one SQL Server table
`Products(id, name, price, qty, description)`.

Sources embedded:
* `database/routes/products.js` — the five route handlers (list, get by id,
  create, update, delete), their validation, SQL texts, bound parameters and
  response shaping;
* `config/database.js` (the config module) — the connection configuration
  built from environment variables and the shared `poolPromise`.

Modelling conventions:
* JavaScript request bodies are records of `Option` fields; a missing field is
  `none` (JS `undefined`).  JS truthiness on the destructured fields is
  `some s` with `s` non-empty for strings, `some n` with `n` nonzero for
  numbers.
* `price` has SQL type `decimal(10,2)`; the two-digit scale is orthogonal to
  every claim, so decimal values are modelled as integers.
* A query submitted through the driver is a `Query`: a constant SQL text plus
  a list of named, typed, bound parameters (mirroring `.input(...)` calls).
* The database is a `Store`: the table rows plus the next identity value.
  `runQuery` is the semantics SQL Server gives the five fixed statements.
* Handlers are functions from (executor, pool handle, store, request data) to
  a `HandlerOut`: the single HTTP response produced, the resulting store, and
  the list of queries submitted.  The executor argument lets theorems also
  quantify over failing database clients (connectivity errors etc.); the real
  semantics is `runQuery`.
* Express path parameters (`req.params.id`) are strings; the driver coerces
  them to `sql.Int` (`coerceSqlInt`).
-/

namespace NodeSqlApi

/-- A JavaScript/SQL value as it appears in bound parameters and result
records: an integer, a string, or JS `undefined`. -/
inductive Value where
  | vint (n : Int)
  | vstr (s : String)
  | vundef
deriving DecidableEq, Repr

/-- The mssql parameter types used by the routes: `sql.Int`, `sql.NVarChar`,
`sql.Decimal(10,2)`. -/
inductive SqlType where
  | int
  | nvarchar
  | decimal10_2
deriving DecidableEq, Repr

/-- One `.input(name, type, value)` call on a request. -/
structure Param where
  pname : String
  ptype : SqlType
  pvalue : Value
deriving DecidableEq, Repr

/-- A query submitted to the driver: bound parameters plus the SQL text passed
to `.query(...)`. -/
structure Query where
  params : List Param
  text : String
deriving DecidableEq, Repr

/-- A row of the `Products` table. -/
structure Row where
  id : Int
  name : String
  price : Int
  qty : Int
  description : String
deriving DecidableEq, Repr

/-- The database state: the table contents and the next identity value the
store will assign. -/
structure Store where
  rows : List Row
  nextId : Int
deriving DecidableEq, Repr

/-- An error raised by the database client; `message` is what `err.message`
yields in the catch blocks. -/
structure DbError where
  message : String
deriving DecidableEq, Repr

/-- A result record, as the driver returns rows: column name to value. -/
abbrev Record := List (String × Value)

/-- The record the driver builds for a `Products` row. -/
def rowRecord (r : Row) : Record :=
  [("id", .vint r.id), ("name", .vstr r.name), ("price", .vint r.price),
   ("qty", .vint r.qty), ("description", .vstr r.description)]

/-- The driver result object: `result.recordset` and `result.rowsAffected`. -/
structure QueryResult where
  recordset : List Record
  rowsAffected : List Nat
deriving DecidableEq, Repr

/-- SQL text of the list query (routes line 55). -/
def selectAllSql : String :=
  "SELECT id, name, price,qty, description FROM Products ORDER BY id ASC"

/-- SQL text of the get-by-id query (routes line 90). -/
def selectByIdSql : String :=
  "SELECT * FROM Products WHERE id = @id"

/-- SQL text of the insert batch (routes line 132). -/
def insertSql : String :=
  "INSERT INTO Products (name, price, description,qty) VALUES (@name, @price, @description,@qty); SELECT SCOPE_IDENTITY() as id"

/-- SQL text of the update statement (routes line 184). -/
def updateSql : String :=
  "UPDATE Products SET name = @name, price = @price, description = @description,qty=@qty WHERE id = @id"

/-- SQL text of the delete statement (routes line 220). -/
def deleteSql : String :=
  "DELETE FROM Products WHERE id = @id"

/-- Look up a bound parameter by name. -/
def findParam (ps : List Param) (n : String) : Option Value :=
  (ps.find? (fun p => p.pname == n)).map Param.pvalue

/-- Accumulator value of a decimal digit string. -/
def decValue : List Char → Nat → Nat
  | [], acc => acc
  | c :: cs, acc => decValue cs (acc * 10 + (c.toNat - 48))

/-- Whether a character list is a non-empty run of decimal digits. -/
def allDigits : List Char → Bool
  | [] => false
  | [c] => c.isDigit
  | c :: cs => c.isDigit && allDigits cs

/-- Parse an optionally signed decimal integer string; `none` on anything
else.  Models the numeric interpretation of strings by the driver and by
`parseInt` (whose prefix-parsing of trailing garbage is irrelevant to every
claim). -/
def strToInt? (s : String) : Option Int :=
  match s.data with
  | '-' :: cs => if allDigits cs then some (-(decValue cs 0 : Nat)) else none
  | cs => if allDigits cs then some ((decValue cs 0 : Nat) : Int) else none

/-- Driver-side coercion of a bound value to `sql.Int`: integers pass through,
numeric strings are parsed, anything else raises a validation error. -/
def coerceSqlInt (v : Option Value) : Except DbError Int :=
  match v with
  | some (.vint n) => .ok n
  | some (.vstr s) =>
      match strToInt? s with
      | some n => .ok n
      | none => .error ⟨"Validation failed for parameter id. Invalid number."⟩
  | _ => .error ⟨"Validation failed for parameter id. Invalid number."⟩

/-- Driver-side coercion of a bound value to `sql.NVarChar`. -/
def coerceSqlStr (v : Option Value) : Except DbError String :=
  match v with
  | some (.vstr s) => .ok s
  | _ => .error ⟨"Validation failed for parameter. Invalid string."⟩

/-- Ordering of rows by ascending id, the order `ORDER BY id ASC` produces. -/
def rowLe (a b : Row) : Prop := a.id ≤ b.id

instance : DecidableRel rowLe := fun a b => inferInstanceAs (Decidable (a.id ≤ b.id))

instance : IsTotal Row rowLe := ⟨fun a b => le_total a.id b.id⟩

instance : IsTrans Row rowLe := ⟨fun _ _ _ h1 h2 => le_trans h1 h2⟩

/-- The store listing rows in ascending id order (the `ORDER BY id ASC`
semantics). -/
def sortById (l : List Row) : List Row := List.insertionSort rowLe l

/-- SQL Server semantics of the five fixed statements the routes submit:
given a query and the store, produce the driver result and the new store, or
a database error (for example when a bound `sql.Int` value is not numeric). -/
def runQuery (q : Query) (db : Store) : Except DbError (QueryResult × Store) :=
  if q.text = selectAllSql then
    .ok (⟨(sortById db.rows).map rowRecord, []⟩, db)
  else if q.text = selectByIdSql then
    match coerceSqlInt (findParam q.params "id") with
    | .error e => .error e
    | .ok n =>
        .ok (⟨(db.rows.filter (fun r => r.id == n)).map rowRecord, []⟩, db)
  else if q.text = insertSql then
    match coerceSqlStr (findParam q.params "name"),
          coerceSqlInt (findParam q.params "price"),
          coerceSqlInt (findParam q.params "qty"),
          coerceSqlStr (findParam q.params "description") with
    | .ok nm, .ok pr, .ok qt, .ok ds =>
        .ok (⟨[[("id", .vint db.nextId)]], [1, 1]⟩,
             ⟨db.rows ++ [⟨db.nextId, nm, pr, qt, ds⟩], db.nextId + 1⟩)
    | .error e, _, _, _ => .error e
    | _, .error e, _, _ => .error e
    | _, _, .error e, _ => .error e
    | _, _, _, .error e => .error e
  else if q.text = updateSql then
    match coerceSqlInt (findParam q.params "id"),
          coerceSqlStr (findParam q.params "name"),
          coerceSqlInt (findParam q.params "price"),
          coerceSqlInt (findParam q.params "qty"),
          coerceSqlStr (findParam q.params "description") with
    | .ok n, .ok nm, .ok pr, .ok qt, .ok ds =>
        .ok (⟨[], [db.rows.countP (fun r => r.id == n)]⟩,
             ⟨db.rows.map (fun r => if r.id == n then ⟨r.id, nm, pr, qt, ds⟩ else r),
              db.nextId⟩)
    | .error e, _, _, _, _ => .error e
    | _, .error e, _, _, _ => .error e
    | _, _, .error e, _, _ => .error e
    | _, _, _, .error e, _ => .error e
    | _, _, _, _, .error e => .error e
  else if q.text = deleteSql then
    match coerceSqlInt (findParam q.params "id") with
    | .error e => .error e
    | .ok n =>
        .ok (⟨[], [db.rows.countP (fun r => r.id == n)]⟩,
             ⟨db.rows.filter (fun r => r.id != n), db.nextId⟩)
  else .error ⟨"Could not find stored procedure."⟩

/-- A database executor: what `pool.request()...query(...)` does.  The real
one is `runQuery`; theorems about store failures quantify over executors that
raise errors. -/
abbrev Exec := Query → Store → Except DbError (QueryResult × Store)

/-- An HTTP response body: plain text (`res.send`), a JSON array or object
(`res.json`), or the create route JSON `\x7bmessage, id\x7d`. -/
inductive Body where
  | text (s : String)
  | jsonArray (rs : List Record)
  | jsonObject (r : Record)
  | jsonMessageId (message : String) (id : Value)
deriving DecidableEq, Repr

/-- An HTTP response: status code and body. -/
structure Response where
  status : Nat
  body : Body
deriving DecidableEq, Repr

/-- What one handler invocation produces: the single response sent, the store
after the request, and the queries submitted to the driver (in order). -/
structure HandlerOut where
  response : Response
  store : Store
  issued : List Query
deriving DecidableEq, Repr

/-- Fixed 404 text of the get/update/delete routes. -/
def productNotFoundMsg : String := "Product not found"

/-- Fixed 400 text of the create/update routes. -/
def requiredFieldsMsg : String := "Name and price are required"

/-- Fixed success message of the create route. -/
def createdMsg : String := "Product created successfully"

/-- Fixed success text of the update route. -/
def updatedMsg : String := "Product updated successfully"

/-- Fixed success text of the delete route. -/
def deletedMsg : String := "Product deleted successfully"

/-- The Node runtime TypeError raised by `pool.request()` when `pool` is
`undefined` (its message names the property `request`; caught by the route
catch block and surfaced as the 500 body). -/
def undefinedRequestError : DbError :=
  ⟨"Cannot read properties of undefined (reading request)"⟩

/-- The Node runtime TypeError raised by `result.recordset[0].id` when the
recordset is empty. -/
def undefinedIdError : DbError :=
  ⟨"Cannot read properties of undefined (reading id)"⟩

/-- A JSON request body after `const \x7b name, price, description, qty \x7d =
req.body`; absent fields are `none` (JS `undefined`). -/
structure ReqBody where
  name : Option String
  price : Option Int
  qty : Option Int
  description : Option String
deriving DecidableEq, Repr

/-- JS truthiness of the destructured `name` field. -/
def truthyStr : Option String → Bool
  | none => false
  | some s => !(s == "")

/-- JS truthiness of the destructured `price` and `qty` fields. -/
def truthyInt : Option Int → Bool
  | none => false
  | some n => !(n == 0)

/-- JS `description || ""`: the empty string when `description` is falsy. -/
def jsOrEmpty : Option String → String
  | none => ""
  | some s => if s == "" then "" else s

/-- The GET `/api/products` handler (routes lines 51-60). -/
def getAllProducts (exec : Exec) (pool : Option Unit) (db : Store) : HandlerOut :=
  match pool with
  | none => ⟨⟨500, .text undefinedRequestError.message⟩, db, []⟩
  | some _ =>
    let q : Query := ⟨[], selectAllSql⟩
    match exec q db with
    | .error e => ⟨⟨500, .text e.message⟩, db, [q]⟩
    | .ok (result, db2) => ⟨⟨200, .jsonArray result.recordset⟩, db2, [q]⟩

/-- The GET `/api/products/:id` handler (routes lines 85-100); `idStr` is the
Express path parameter `req.params.id`, a string. -/
def getProductById (exec : Exec) (pool : Option Unit) (db : Store)
    (idStr : String) : HandlerOut :=
  match pool with
  | none => ⟨⟨500, .text undefinedRequestError.message⟩, db, []⟩
  | some _ =>
    let q : Query := ⟨[⟨"id", .int, .vstr idStr⟩], selectByIdSql⟩
    match exec q db with
    | .error e => ⟨⟨500, .text e.message⟩, db, [q]⟩
    | .ok (result, db2) =>
      match result.recordset with
      | [] => ⟨⟨404, .text productNotFoundMsg⟩, db2, [q]⟩
      | rec :: _ => ⟨⟨200, .jsonObject rec⟩, db2, [q]⟩

/-- The POST `/api/products` handler (routes lines 118-141): truthiness check
on name, price, qty; then a parameterized insert; 201 with the generated id
read from `result.recordset[0].id`. -/
def createProduct (exec : Exec) (pool : Option Unit) (db : Store)
    (b : ReqBody) : HandlerOut :=
  match b.name, b.price, b.qty with
  | some nm, some pr, some qt =>
    if nm == "" || pr == 0 || qt == 0 then
      ⟨⟨400, .text requiredFieldsMsg⟩, db, []⟩
    else
      match pool with
      | none => ⟨⟨500, .text undefinedRequestError.message⟩, db, []⟩
      | some _ =>
        let q : Query :=
          ⟨[⟨"name", .nvarchar, .vstr nm⟩,
            ⟨"price", .decimal10_2, .vint pr⟩,
            ⟨"qty", .int, .vint qt⟩,
            ⟨"description", .nvarchar, .vstr (jsOrEmpty b.description)⟩],
           insertSql⟩
        match exec q db with
        | .error e => ⟨⟨500, .text e.message⟩, db, [q]⟩
        | .ok (result, db2) =>
          match result.recordset with
          | [] => ⟨⟨500, .text undefinedIdError.message⟩, db2, [q]⟩
          | rec :: _ =>
            ⟨⟨201, .jsonMessageId createdMsg
                (((rec.find? (fun p => p.1 == "id")).map Prod.snd).getD .vundef)⟩,
             db2, [q]⟩
  | _, _, _ => ⟨⟨400, .text requiredFieldsMsg⟩, db, []⟩

/-- The PUT `/api/products/:id` handler (routes lines 168-194): same
validation as create, then a parameterized update of all four fields by id;
404 exactly when `result.rowsAffected[0] === 0`. -/
def updateProduct (exec : Exec) (pool : Option Unit) (db : Store)
    (idStr : String) (b : ReqBody) : HandlerOut :=
  match b.name, b.price, b.qty with
  | some nm, some pr, some qt =>
    if nm == "" || pr == 0 || qt == 0 then
      ⟨⟨400, .text requiredFieldsMsg⟩, db, []⟩
    else
      match pool with
      | none => ⟨⟨500, .text undefinedRequestError.message⟩, db, []⟩
      | some _ =>
        let q : Query :=
          ⟨[⟨"id", .int, .vstr idStr⟩,
            ⟨"name", .nvarchar, .vstr nm⟩,
            ⟨"price", .decimal10_2, .vint pr⟩,
            ⟨"qty", .int, .vint qt⟩,
            ⟨"description", .nvarchar, .vstr (jsOrEmpty b.description)⟩],
           updateSql⟩
        match exec q db with
        | .error e => ⟨⟨500, .text e.message⟩, db, [q]⟩
        | .ok (result, db2) =>
          if result.rowsAffected.head? = some 0 then
            ⟨⟨404, .text productNotFoundMsg⟩, db2, [q]⟩
          else
            ⟨⟨200, .text updatedMsg⟩, db2, [q]⟩
  | _, _, _ => ⟨⟨400, .text requiredFieldsMsg⟩, db, []⟩

/-- The DELETE `/api/products/:id` handler (routes lines 215-230). -/
def deleteProduct (exec : Exec) (pool : Option Unit) (db : Store)
    (idStr : String) : HandlerOut :=
  match pool with
  | none => ⟨⟨500, .text undefinedRequestError.message⟩, db, []⟩
  | some _ =>
    let q : Query := ⟨[⟨"id", .int, .vstr idStr⟩], deleteSql⟩
    match exec q db with
    | .error e => ⟨⟨500, .text e.message⟩, db, [q]⟩
    | .ok (result, db2) =>
      if result.rowsAffected.head? = some 0 then
        ⟨⟨404, .text productNotFoundMsg⟩, db2, [q]⟩
      else
        ⟨⟨200, .text deletedMsg⟩, db2, [q]⟩

/-- An environment: `process.env` lookups. -/
def Env : Type := String → Option String

/-- The `options` block of the mssql config. -/
structure DbOptions where
  encrypt : Bool
  trustServerCertificate : Bool
deriving DecidableEq, Repr

/-- The mssql connection config object built in the config module. -/
structure DbConfig where
  server : Option String
  database : Option String
  user : Option String
  password : Option String
  port : Option Int
  options : DbOptions
deriving DecidableEq, Repr

/-- The `config` object of the config module: server, database, user,
password and port read from `process.env`; the `options` block is the literal
`\x7b encrypt: false, trustServerCertificate: true \x7d`.  (`parseInt` of an
absent or non-numeric `DB_PORT` yields NaN, modelled as `none`.) -/
def mkConfig (env : Env) : DbConfig :=
  ⟨env "DB_SERVER", env "DB_DATABASE", env "DB_USER", env "DB_PASSWORD",
   (env "DB_PORT").bind strToInt?, ⟨false, true⟩⟩

/-- An error from `ConnectionPool.connect()`. -/
structure ConnError where
  message : String
deriving DecidableEq, Repr

/-- The exported `poolPromise`: the connect attempt with `.then` returning the
pool and `.catch` only logging.  A catch handler that returns nothing makes
the resulting promise FULFILL with `undefined` (`none`), never reject. -/
def poolPromise (attempt : Except ConnError Unit) : Except ConnError (Option Unit) :=
  match attempt with
  | .ok p => .ok (some p)
  | .error _ => .ok none

/-- C2: for every request to any of the five product handlers, the SQL text
submitted to the store is the handler's fixed constant string, independent of
the request's path parameter, body, pool state and database client; all
request-derived values travel only in the bound-parameter list of the
`Query`, never in its text. -/
theorem sql_text_constant :
    (∀ (exec : Exec) (pool : Option Unit) (db : Store),
      ((getAllProducts exec pool db).issued.all
        (fun q => q.text == selectAllSql)) = true) ∧
    (∀ (exec : Exec) (pool : Option Unit) (db : Store) (idStr : String),
      ((getProductById exec pool db idStr).issued.all
        (fun q => q.text == selectByIdSql)) = true) ∧
    (∀ (exec : Exec) (pool : Option Unit) (db : Store) (b : ReqBody),
      ((createProduct exec pool db b).issued.all
        (fun q => q.text == insertSql)) = true) ∧
    (∀ (exec : Exec) (pool : Option Unit) (db : Store) (idStr : String) (b : ReqBody),
      ((updateProduct exec pool db idStr b).issued.all
        (fun q => q.text == updateSql)) = true) ∧
    (∀ (exec : Exec) (pool : Option Unit) (db : Store) (idStr : String),
      ((deleteProduct exec pool db idStr).issued.all
        (fun q => q.text == deleteSql)) = true) := by
  refine ⟨?_, ?_, ?_, ?_, ?_⟩
  · intro exec pool db
    unfold getAllProducts
    split
    · rfl
    · dsimp only
      split <;> rfl
  · intro exec pool db idStr
    unfold getProductById
    split
    · rfl
    · dsimp only
      split
      · rfl
      · split <;> rfl
  · intro exec pool db b
    unfold createProduct
    split
    · split
      · rfl
      · split
        · rfl
        · dsimp only
          split
          · rfl
          · split <;> rfl
    · rfl
  · intro exec pool db idStr b
    unfold updateProduct
    split
    · split
      · rfl
      · split
        · rfl
        · dsimp only
          split
          · rfl
          · split <;> rfl
    · rfl
  · intro exec pool db idStr
    unfold deleteProduct
    split
    · rfl
    · dsimp only
      split
      · rfl
      · split <;> rfl

/-- A body with a falsy name, price or qty makes both write handlers return
400 with the fixed text, issue no query and leave the store unchanged
(shared between the missing-field and the zero-value theorems). -/
theorem falsy_required_field_rejects (exec : Exec) (pool : Option Unit)
    (db : Store) (idStr : String) (b : ReqBody)
    (h : truthyStr b.name = false ∨ truthyInt b.price = false ∨
         truthyInt b.qty = false) :
    createProduct exec pool db b = ⟨⟨400, .text requiredFieldsMsg⟩, db, []⟩ ∧
    updateProduct exec pool db idStr b = ⟨⟨400, .text requiredFieldsMsg⟩, db, []⟩ := by
  rcases b with ⟨bn, bp, bq, bd⟩
  rcases bn with _ | nm
  · exact ⟨rfl, rfl⟩
  rcases bp with _ | pr
  · exact ⟨rfl, rfl⟩
  rcases bq with _ | qt
  · exact ⟨rfl, rfl⟩
  have hcond : (nm == "" || pr == 0 || qt == 0) = true := by
    rcases h with h | h | h <;> simp [truthyStr, truthyInt] at h <;> simp [h]
  constructor <;> simp [createProduct, updateProduct, hcond]

/-- C3: a POST or PUT whose body is missing any of name, price, qty, or has a
falsy value there, returns 400 with the fixed text, issues no query, and
leaves the store unchanged. -/
theorem invalid_body_rejected_without_query (exec : Exec) (pool : Option Unit)
    (db : Store) (idStr : String) (b : ReqBody)
    (h : truthyStr b.name = false ∨ truthyInt b.price = false ∨
         truthyInt b.qty = false) :
    createProduct exec pool db b = ⟨⟨400, .text requiredFieldsMsg⟩, db, []⟩ ∧
    updateProduct exec pool db idStr b = ⟨⟨400, .text requiredFieldsMsg⟩, db, []⟩ :=
  falsy_required_field_rejects exec pool db idStr b h

/-- Witness for `invalid_body_rejected_without_query` at a body missing its
name. -/
theorem invalid_body_rejected_without_query_witness :
    createProduct runQuery (some ()) ⟨[], 1⟩ ⟨none, some 5, some 2, none⟩ =
      ⟨⟨400, .text requiredFieldsMsg⟩, ⟨[], 1⟩, []⟩ ∧
    updateProduct runQuery (some ()) ⟨[], 1⟩ "1" ⟨none, some 5, some 2, none⟩ =
      ⟨⟨400, .text requiredFieldsMsg⟩, ⟨[], 1⟩, []⟩ :=
  invalid_body_rejected_without_query runQuery (some ()) ⟨[], 1⟩ "1"
    ⟨none, some 5, some 2, none⟩ (Or.inl rfl)

/-- C5: a POST or PUT whose body carries price = 0 or qty = 0 (present but
falsy) is rejected with 400 exactly like a missing field: no query issued, no
store mutation. -/
theorem zero_price_or_qty_rejected (exec : Exec) (pool : Option Unit)
    (db : Store) (idStr : String) (b : ReqBody)
    (h : b.price = some 0 ∨ b.qty = some 0) :
    createProduct exec pool db b = ⟨⟨400, .text requiredFieldsMsg⟩, db, []⟩ ∧
    updateProduct exec pool db idStr b = ⟨⟨400, .text requiredFieldsMsg⟩, db, []⟩ := by
  apply falsy_required_field_rejects
  rcases h with h | h
  · exact Or.inr (Or.inl (by simp [truthyInt, h]))
  · exact Or.inr (Or.inr (by simp [truthyInt, h]))

/-- Witness for `zero_price_or_qty_rejected` at price 0 in an otherwise valid
body. -/
theorem zero_price_or_qty_rejected_witness :
    createProduct runQuery (some ()) ⟨[], 1⟩ ⟨some "Laptop", some 0, some 5, none⟩ =
      ⟨⟨400, .text requiredFieldsMsg⟩, ⟨[], 1⟩, []⟩ ∧
    updateProduct runQuery (some ()) ⟨[], 1⟩ "1" ⟨some "Laptop", some 0, some 5, none⟩ =
      ⟨⟨400, .text requiredFieldsMsg⟩, ⟨[], 1⟩, []⟩ :=
  zero_price_or_qty_rejected runQuery (some ()) ⟨[], 1⟩ "1"
    ⟨some "Laptop", some 0, some 5, none⟩ (Or.inl rfl)

/-- C9 counterexample: the `options` block of the connection config (encrypt,
trustServerCertificate) is the same for every environment — it is the literal
`false` / `true` in the source — so the transport-security toggle is NOT taken
from environment configuration, refuting the claim that none of the
configuration values is hard-coded. -/
theorem transport_toggle_not_from_env :
    (mkConfig (fun _ => none)).options = (mkConfig (fun _ => some "true")).options ∧
    (mkConfig (fun _ => some "true")).options.encrypt = false ∧
    (mkConfig (fun _ => some "true")).options.trustServerCertificate = true ∧
    ¬ (∃ e1 e2 : Env, (mkConfig e1).options ≠ (mkConfig e2).options) := by
  refine ⟨rfl, rfl, rfl, ?_⟩
  rintro ⟨e1, e2, h⟩
  exact h rfl

/-- C9 amended: the server, database name, user, password and port of the
connection config are taken from the environment (each varies with it), while
the transport-security options are hard-coded to encrypt = false,
trustServerCertificate = true for every environment. -/
theorem config_env_fields_hardcoded_toggle :
    (∃ e1 e2 : Env, (mkConfig e1).server ≠ (mkConfig e2).server) ∧
    (∃ e1 e2 : Env, (mkConfig e1).database ≠ (mkConfig e2).database) ∧
    (∃ e1 e2 : Env, (mkConfig e1).user ≠ (mkConfig e2).user) ∧
    (∃ e1 e2 : Env, (mkConfig e1).password ≠ (mkConfig e2).password) ∧
    (∃ e1 e2 : Env, (mkConfig e1).port ≠ (mkConfig e2).port) ∧
    (∀ env : Env, (mkConfig env).options = ⟨false, true⟩) := by
  refine ⟨⟨fun _ => none, fun _ => some "x", by simp [mkConfig]⟩,
          ⟨fun _ => none, fun _ => some "x", by simp [mkConfig]⟩,
          ⟨fun _ => none, fun _ => some "x", by simp [mkConfig]⟩,
          ⟨fun _ => none, fun _ => some "x", by simp [mkConfig]⟩,
          ⟨fun _ => none, fun _ => some "1433", by decide⟩,
          fun _ => rfl⟩

/-- C10: when the initial connection attempt fails, `poolPromise` FULFILLS
with `undefined` (`none`) instead of rejecting; every `await poolPromise`
therefore succeeds, and with the `none` handle each handler produces exactly
one 500 response (from the TypeError of calling `request()` on `undefined`)
without issuing any query. -/
theorem pool_failure_fulfills_undefined_then_500 :
    (∀ e : ConnError, poolPromise (.error e) = .ok none) ∧
    (∀ a : Except ConnError Unit, ∃ v, poolPromise a = .ok v) ∧
    (∀ (exec : Exec) (db : Store),
      getAllProducts exec none db =
        ⟨⟨500, .text undefinedRequestError.message⟩, db, []⟩) ∧
    (∀ (exec : Exec) (db : Store) (s : String),
      getProductById exec none db s =
        ⟨⟨500, .text undefinedRequestError.message⟩, db, []⟩) ∧
    (∀ (exec : Exec) (db : Store) (s : String),
      deleteProduct exec none db s =
        ⟨⟨500, .text undefinedRequestError.message⟩, db, []⟩) ∧
    (∀ (exec : Exec) (db : Store) (s : String) (nm : String) (pr qt : Int)
        (bd : Option String), nm ≠ "" → pr ≠ 0 → qt ≠ 0 →
      createProduct exec none db ⟨some nm, some pr, some qt, bd⟩ =
        ⟨⟨500, .text undefinedRequestError.message⟩, db, []⟩ ∧
      updateProduct exec none db s ⟨some nm, some pr, some qt, bd⟩ =
        ⟨⟨500, .text undefinedRequestError.message⟩, db, []⟩) := by
  refine ⟨fun e => rfl, ?_, fun exec db => rfl, fun exec db s => rfl,
          fun exec db s => rfl, ?_⟩
  · intro a
    rcases a with e | p
    · exact ⟨none, rfl⟩
    · exact ⟨some p, rfl⟩
  · intro exec db s nm pr qt bd hn hp hq
    have hcond : (nm == "" || pr == 0 || qt == 0) = false := by
      simp [hn, hp, hq]
    constructor <;> simp [createProduct, updateProduct, hcond]

/-- What `runQuery` does with the list query. -/
theorem runQuery_selectAll (db : Store) :
    runQuery ⟨[], selectAllSql⟩ db =
      .ok (⟨(sortById db.rows).map rowRecord, []⟩, db) := rfl

/-- What `runQuery` does with the get-by-id query when the bound id string is
numeric. -/
theorem runQuery_selectById (db : Store) (idStr : String) (n : Int)
    (hparse : strToInt? idStr = some n) :
    runQuery ⟨[⟨"id", .int, .vstr idStr⟩], selectByIdSql⟩ db =
      .ok (⟨(db.rows.filter (fun r => r.id == n)).map rowRecord, []⟩, db) := by
  unfold runQuery
  rw [if_neg (show ¬ (selectByIdSql = selectAllSql) by decide), if_pos rfl]
  rw [show findParam [⟨"id", .int, .vstr idStr⟩] "id" = some (.vstr idStr) from rfl]
  simp only [coerceSqlInt, hparse]

/-- What `runQuery` does with the insert batch. -/
theorem runQuery_insert (db : Store) (nm : String) (pr qt : Int) (ds : String) :
    runQuery ⟨[⟨"name", .nvarchar, .vstr nm⟩, ⟨"price", .decimal10_2, .vint pr⟩,
               ⟨"qty", .int, .vint qt⟩, ⟨"description", .nvarchar, .vstr ds⟩],
              insertSql⟩ db =
      .ok (⟨[[("id", .vint db.nextId)]], [1, 1]⟩,
           ⟨db.rows ++ [⟨db.nextId, nm, pr, qt, ds⟩], db.nextId + 1⟩) := by
  unfold runQuery
  rw [if_neg (show ¬ (insertSql = selectAllSql) by decide),
      if_neg (show ¬ (insertSql = selectByIdSql) by decide), if_pos rfl]
  rfl

/-- What `runQuery` does with the update statement when the bound id string is
numeric. -/
theorem runQuery_update (db : Store) (idStr : String) (n : Int) (nm : String)
    (pr qt : Int) (ds : String) (hparse : strToInt? idStr = some n) :
    runQuery ⟨[⟨"id", .int, .vstr idStr⟩, ⟨"name", .nvarchar, .vstr nm⟩,
               ⟨"price", .decimal10_2, .vint pr⟩, ⟨"qty", .int, .vint qt⟩,
               ⟨"description", .nvarchar, .vstr ds⟩], updateSql⟩ db =
      .ok (⟨[], [db.rows.countP (fun r => r.id == n)]⟩,
           ⟨db.rows.map (fun r => if r.id == n then ⟨r.id, nm, pr, qt, ds⟩ else r),
            db.nextId⟩) := by
  unfold runQuery
  rw [if_neg (show ¬ (updateSql = selectAllSql) by decide),
      if_neg (show ¬ (updateSql = selectByIdSql) by decide),
      if_neg (show ¬ (updateSql = insertSql) by decide), if_pos rfl]
  rw [show findParam [⟨"id", .int, .vstr idStr⟩, ⟨"name", .nvarchar, .vstr nm⟩,
        ⟨"price", .decimal10_2, .vint pr⟩, ⟨"qty", .int, .vint qt⟩,
        ⟨"description", .nvarchar, .vstr ds⟩] "id" = some (.vstr idStr) from rfl]
  simp only [coerceSqlInt, hparse]
  rfl

/-- What `runQuery` does with the delete statement when the bound id string is
numeric. -/
theorem runQuery_delete (db : Store) (idStr : String) (n : Int)
    (hparse : strToInt? idStr = some n) :
    runQuery ⟨[⟨"id", .int, .vstr idStr⟩], deleteSql⟩ db =
      .ok (⟨[], [db.rows.countP (fun r => r.id == n)]⟩,
           ⟨db.rows.filter (fun r => r.id != n), db.nextId⟩) := by
  unfold runQuery
  rw [if_neg (show ¬ (deleteSql = selectAllSql) by decide),
      if_neg (show ¬ (deleteSql = selectByIdSql) by decide),
      if_neg (show ¬ (deleteSql = insertSql) by decide),
      if_neg (show ¬ (deleteSql = updateSql) by decide), if_pos rfl]
  rw [show findParam [⟨"id", .int, .vstr idStr⟩] "id" = some (.vstr idStr) from rfl]
  simp only [coerceSqlInt, hparse]

/-- C6: every successful GET of the product list answers 200 with the JSON
array of the stored rows sorted in ascending id order (a sorted permutation
of the store contents, whatever their insertion order), leaving the store
unchanged; a query error answers 500 with the error text. -/
theorem list_products_sorted :
    (∀ db : Store, ∃ rows : List Row,
      getAllProducts runQuery (some ()) db =
        ⟨⟨200, .jsonArray (rows.map rowRecord)⟩, db, [⟨[], selectAllSql⟩]⟩ ∧
      rows.Perm db.rows ∧ List.Sorted rowLe rows) ∧
    (∀ (db : Store) (e : DbError),
      getAllProducts (fun _ _ => .error e) (some ()) db =
        ⟨⟨500, .text e.message⟩, db, [⟨[], selectAllSql⟩]⟩) := by
  constructor
  · intro db
    refine ⟨sortById db.rows, ?_, List.perm_insertionSort rowLe db.rows,
            List.sorted_insertionSort rowLe db.rows⟩
    unfold getAllProducts
    dsimp only
    rw [runQuery_selectAll]
  · intro db e
    rfl

/-- In a table whose ids are pairwise distinct, filtering by an id present on
row `r` yields exactly `[r]`. -/
theorem filter_id_singleton (l : List Row) (n : Int)
    (hnd : (l.map Row.id).Nodup) (r : Row) (hr : r ∈ l) (hid : r.id = n) :
    l.filter (fun x => x.id == n) = [r] := by
  induction l with
  | nil => cases hr
  | cons x xs ih =>
    have hnd2 : x.id ∉ xs.map Row.id ∧ (xs.map Row.id).Nodup := by
      simpa [List.nodup_cons] using hnd
    rcases List.mem_cons.mp hr with rfl | hr2
    · rw [List.filter_cons_of_pos (by simp [hid])]
      have hnil : xs.filter (fun x2 => x2.id == n) = [] := by
        apply List.filter_eq_nil_iff.mpr
        intro a ha hc
        have han : a.id = n := by simpa using hc
        exact hnd2.1 (List.mem_map.mpr ⟨a, ha, han.trans hid.symm⟩)
      rw [hnil]
    · have hxne : ¬ (x.id == n) = true := by
        intro hc
        have hxn : x.id = n := by simpa using hc
        exact hnd2.1 (List.mem_map.mpr ⟨r, hr2, hid.trans hxn.symm⟩)
      have hstep : List.filter (fun y => y.id == n) (x :: xs) =
          List.filter (fun y => y.id == n) xs := List.filter_cons_of_neg hxne
      rw [hstep]
      exact ih hnd2.2 hr2

/-- C7: on a GET by id that the store answers without error, the handler
returns 404 with the fixed text when the id matches no row, and 200 with the
JSON object of the single matching row when it matches one (ids being
pairwise distinct in the table); a query error yields 500 with the error
text. -/
theorem get_by_id_cases (db : Store) (idStr : String) (n : Int)
    (hparse : strToInt? idStr = some n)
    (hnd : (db.rows.map Row.id).Nodup) :
    ((∀ r ∈ db.rows, r.id ≠ n) →
      getProductById runQuery (some ()) db idStr =
        ⟨⟨404, .text productNotFoundMsg⟩, db,
         [⟨[⟨"id", .int, .vstr idStr⟩], selectByIdSql⟩]⟩) ∧
    (∀ r ∈ db.rows, r.id = n →
      getProductById runQuery (some ()) db idStr =
        ⟨⟨200, .jsonObject (rowRecord r)⟩, db,
         [⟨[⟨"id", .int, .vstr idStr⟩], selectByIdSql⟩]⟩) ∧
    (∀ e : DbError,
      getProductById (fun _ _ => .error e) (some ()) db idStr =
        ⟨⟨500, .text e.message⟩, db,
         [⟨[⟨"id", .int, .vstr idStr⟩], selectByIdSql⟩]⟩) := by
  refine ⟨?_, ?_, fun e => rfl⟩
  · intro h
    have hnil : db.rows.filter (fun r => r.id == n) = [] :=
      List.filter_eq_nil_iff.mpr (fun a ha => by simp [h a ha])
    unfold getProductById
    dsimp only
    rw [runQuery_selectById db idStr n hparse, hnil]
    rfl
  · intro r hr hid
    have hone := filter_id_singleton db.rows n hnd r hr hid
    unfold getProductById
    dsimp only
    rw [runQuery_selectById db idStr n hparse, hone]
    rfl

/-- Witness for `get_by_id_cases`: a one-row store, GET of the present id. -/
theorem get_by_id_cases_witness :
    getProductById runQuery (some ()) ⟨[⟨1, "Laptop", 75000, 5, ""⟩], 2⟩ "1" =
      ⟨⟨200, .jsonObject (rowRecord ⟨1, "Laptop", 75000, 5, ""⟩)⟩,
       ⟨[⟨1, "Laptop", 75000, 5, ""⟩], 2⟩,
       [⟨[⟨"id", .int, .vstr "1"⟩], selectByIdSql⟩]⟩ :=
  (get_by_id_cases ⟨[⟨1, "Laptop", 75000, 5, ""⟩], 2⟩ "1" 1 (by decide)
      (by decide)).2.1 ⟨1, "Laptop", 75000, 5, ""⟩ (by decide) rfl

/-- The update query the PUT handler binds for path id `idStr` and body
fields `nm`, `pr`, `qt`, `ds`. -/
def updateQuery (idStr nm : String) (pr qt : Int) (ds : String) : Query :=
  ⟨[⟨"id", .int, .vstr idStr⟩, ⟨"name", .nvarchar, .vstr nm⟩,
    ⟨"price", .decimal10_2, .vint pr⟩, ⟨"qty", .int, .vint qt⟩,
    ⟨"description", .nvarchar, .vstr ds⟩], updateSql⟩

/-- The insert query the POST handler binds for body fields `nm`, `pr`, `qt`,
`ds`. -/
def insertQuery (nm : String) (pr qt : Int) (ds : String) : Query :=
  ⟨[⟨"name", .nvarchar, .vstr nm⟩, ⟨"price", .decimal10_2, .vint pr⟩,
    ⟨"qty", .int, .vint qt⟩, ⟨"description", .nvarchar, .vstr ds⟩], insertSql⟩

/-- C4: for PUT and DELETE the existence decision is made solely from the
write statement rows-affected count: 404 with the fixed text exactly when
zero rows were affected (no row has the id), otherwise 200 with the fixed
success text; a PUT on a non-existent id leaves the store unchanged. -/
theorem update_delete_rows_affected (db : Store) (idStr : String) (n : Int)
    (nm : String) (pr qt : Int) (bd : Option String)
    (hparse : strToInt? idStr = some n)
    (hn : nm ≠ "") (hp : pr ≠ 0) (hq : qt ≠ 0) :
    ((updateProduct runQuery (some ()) db idStr
        ⟨some nm, some pr, some qt, bd⟩).response =
          ⟨404, .text productNotFoundMsg⟩ ↔
      db.rows.countP (fun r => r.id == n) = 0) ∧
    (db.rows.countP (fun r => r.id == n) = 0 →
      updateProduct runQuery (some ()) db idStr ⟨some nm, some pr, some qt, bd⟩ =
        ⟨⟨404, .text productNotFoundMsg⟩, db,
         [updateQuery idStr nm pr qt (jsOrEmpty bd)]⟩) ∧
    (db.rows.countP (fun r => r.id == n) ≠ 0 →
      (updateProduct runQuery (some ()) db idStr
        ⟨some nm, some pr, some qt, bd⟩).response = ⟨200, .text updatedMsg⟩) ∧
    ((deleteProduct runQuery (some ()) db idStr).response =
        ⟨404, .text productNotFoundMsg⟩ ↔
      db.rows.countP (fun r => r.id == n) = 0) ∧
    (db.rows.countP (fun r => r.id == n) = 0 →
      deleteProduct runQuery (some ()) db idStr =
        ⟨⟨404, .text productNotFoundMsg⟩, db,
         [⟨[⟨"id", .int, .vstr idStr⟩], deleteSql⟩]⟩) ∧
    (db.rows.countP (fun r => r.id == n) ≠ 0 →
      (deleteProduct runQuery (some ()) db idStr).response =
        ⟨200, .text deletedMsg⟩) := by
  have hcond : (nm == "" || pr == 0 || qt == 0) = false := by simp [hn, hp, hq]
  have hU : updateProduct runQuery (some ()) db idStr ⟨some nm, some pr, some qt, bd⟩ =
      (if db.rows.countP (fun r => r.id == n) = 0 then
        ⟨⟨404, .text productNotFoundMsg⟩,
         ⟨db.rows.map (fun r => if r.id == n then ⟨r.id, nm, pr, qt, jsOrEmpty bd⟩ else r),
          db.nextId⟩, [updateQuery idStr nm pr qt (jsOrEmpty bd)]⟩
      else
        ⟨⟨200, .text updatedMsg⟩,
         ⟨db.rows.map (fun r => if r.id == n then ⟨r.id, nm, pr, qt, jsOrEmpty bd⟩ else r),
          db.nextId⟩, [updateQuery idStr nm pr qt (jsOrEmpty bd)]⟩) := by
    unfold updateProduct
    dsimp only
    rw [if_neg (by simp [hcond])]
    rw [runQuery_update db idStr n nm pr qt (jsOrEmpty bd) hparse]
    dsimp only [List.head?]
    by_cases hc : db.rows.countP (fun r => r.id == n) = 0
    · rw [if_pos (congrArg some hc), if_pos hc]
      rfl
    · rw [if_neg (show ¬ (some (db.rows.countP (fun r => r.id == n)) = some 0)
          from fun h => hc (Option.some.inj h)), if_neg hc]
      rfl
  have hD : deleteProduct runQuery (some ()) db idStr =
      (if db.rows.countP (fun r => r.id == n) = 0 then
        ⟨⟨404, .text productNotFoundMsg⟩,
         ⟨db.rows.filter (fun r => r.id != n), db.nextId⟩,
         [⟨[⟨"id", .int, .vstr idStr⟩], deleteSql⟩]⟩
      else
        ⟨⟨200, .text deletedMsg⟩,
         ⟨db.rows.filter (fun r => r.id != n), db.nextId⟩,
         [⟨[⟨"id", .int, .vstr idStr⟩], deleteSql⟩]⟩) := by
    unfold deleteProduct
    dsimp only
    rw [runQuery_delete db idStr n hparse]
    dsimp only [List.head?]
    by_cases hc : db.rows.countP (fun r => r.id == n) = 0
    · rw [if_pos (congrArg some hc), if_pos hc]
    · rw [if_neg (show ¬ (some (db.rows.countP (fun r => r.id == n)) = some 0)
          from fun h => hc (Option.some.inj h)), if_neg hc]
  have hmapid : db.rows.countP (fun r => r.id == n) = 0 →
      db.rows.map (fun r => if r.id == n then ⟨r.id, nm, pr, qt, jsOrEmpty bd⟩ else r) =
        db.rows := by
    intro hc
    have h0 := List.countP_eq_zero.mp hc
    rw [List.map_congr_left (fun a ha => by simp [h0 a ha] : ∀ a ∈ db.rows,
      (if a.id == n then (⟨a.id, nm, pr, qt, jsOrEmpty bd⟩ : Row) else a) = a)]
    exact List.map_id' db.rows
  have hfilid : db.rows.countP (fun r => r.id == n) = 0 →
      db.rows.filter (fun r => r.id != n) = db.rows := by
    intro hc
    have h0 := List.countP_eq_zero.mp hc
    exact List.filter_eq_self.mpr (fun a ha => by simp [h0 a ha] at *; simpa using h0 a ha)
  refine ⟨?_, ?_, ?_, ?_, ?_, ?_⟩
  · rw [hU]
    by_cases hc : db.rows.countP (fun r => r.id == n) = 0
    · rw [if_pos hc]
      exact iff_of_true rfl hc
    · rw [if_neg hc]
      constructor
      · intro habs
        have h2 : (200 : Nat) = 404 := congrArg Response.status habs
        exact absurd h2 (by decide)
      · intro hc2
        exact absurd hc2 hc
  · intro hc
    rw [hU, if_pos hc, hmapid hc]
  · intro hc
    rw [hU, if_neg hc]
  · rw [hD]
    by_cases hc : db.rows.countP (fun r => r.id == n) = 0
    · rw [if_pos hc]
      exact iff_of_true rfl hc
    · rw [if_neg hc]
      constructor
      · intro habs
        have h2 : (200 : Nat) = 404 := congrArg Response.status habs
        exact absurd h2 (by decide)
      · intro hc2
        exact absurd hc2 hc
  · intro hc
    rw [hD, if_pos hc, hfilid hc]
  · intro hc
    rw [hD, if_neg hc]

/-- Witness for `update_delete_rows_affected`: PUT and DELETE of id 999 on an
empty store answer 404 and leave the store unchanged. -/
theorem update_delete_rows_affected_witness :
    updateProduct runQuery (some ()) ⟨[], 5⟩ "999"
        ⟨some "Laptop", some 75000, some 5, none⟩ =
      ⟨⟨404, .text productNotFoundMsg⟩, ⟨[], 5⟩,
       [updateQuery "999" "Laptop" 75000 5 (jsOrEmpty none)]⟩ :=
  (update_delete_rows_affected ⟨[], 5⟩ "999" 999 "Laptop" 75000 5 none
    (by decide) (by decide) (by decide) (by decide)).2.1 rfl

/-- C1: a POST of a valid payload appends the row under the next identity
value, answers 201 with the fixed message and that generated id, and a
subsequent GET by the returned id answers 200 with the record of exactly that
payload, description defaulted to the empty string when omitted. -/
theorem post_then_get_roundtrip (db : Store) (nm : String) (pr qt : Int)
    (bd : Option String) (idStr : String)
    (hn : nm ≠ "") (hp : pr ≠ 0) (hq : qt ≠ 0)
    (hwf : ∀ r ∈ db.rows, r.id < db.nextId)
    (hparse : strToInt? idStr = some db.nextId) :
    createProduct runQuery (some ()) db ⟨some nm, some pr, some qt, bd⟩ =
      ⟨⟨201, .jsonMessageId createdMsg (.vint db.nextId)⟩,
       ⟨db.rows ++ [⟨db.nextId, nm, pr, qt, jsOrEmpty bd⟩], db.nextId + 1⟩,
       [insertQuery nm pr qt (jsOrEmpty bd)]⟩ ∧
    getProductById runQuery (some ())
        ⟨db.rows ++ [⟨db.nextId, nm, pr, qt, jsOrEmpty bd⟩], db.nextId + 1⟩ idStr =
      ⟨⟨200, .jsonObject (rowRecord ⟨db.nextId, nm, pr, qt, jsOrEmpty bd⟩)⟩,
       ⟨db.rows ++ [⟨db.nextId, nm, pr, qt, jsOrEmpty bd⟩], db.nextId + 1⟩,
       [⟨[⟨"id", .int, .vstr idStr⟩], selectByIdSql⟩]⟩ := by
  have hcond : (nm == "" || pr == 0 || qt == 0) = false := by simp [hn, hp, hq]
  constructor
  · unfold createProduct
    dsimp only
    rw [if_neg (by simp [hcond])]
    rw [runQuery_insert db nm pr qt (jsOrEmpty bd)]
    rfl
  · have hfilter : (db.rows ++ [(⟨db.nextId, nm, pr, qt, jsOrEmpty bd⟩ : Row)]).filter
        (fun r => r.id == db.nextId) = [(⟨db.nextId, nm, pr, qt, jsOrEmpty bd⟩ : Row)] := by
      rw [List.filter_append,
          List.filter_eq_nil_iff.mpr (fun a ha => by simp [Int.ne_of_lt (hwf a ha)])]
      simp
    unfold getProductById
    dsimp only
    rw [runQuery_selectById ⟨db.rows ++ [(⟨db.nextId, nm, pr, qt, jsOrEmpty bd⟩ : Row)],
        db.nextId + 1⟩ idStr db.nextId hparse]
    dsimp only
    rw [hfilter]
    rfl

/-- Witness for `post_then_get_roundtrip`: the spec scenario — POST of
name Laptop, price 75000, qty 5 into an empty store, then GET of id 1. -/
theorem post_then_get_roundtrip_witness :
    createProduct runQuery (some ()) ⟨[], 1⟩ ⟨some "Laptop", some 75000, some 5, none⟩ =
      ⟨⟨201, .jsonMessageId createdMsg (.vint 1)⟩,
       ⟨[⟨1, "Laptop", 75000, 5, jsOrEmpty none⟩], 2⟩,
       [insertQuery "Laptop" 75000 5 (jsOrEmpty none)]⟩ ∧
    getProductById runQuery (some ()) ⟨[⟨1, "Laptop", 75000, 5, jsOrEmpty none⟩], 2⟩ "1" =
      ⟨⟨200, .jsonObject (rowRecord ⟨1, "Laptop", 75000, 5, jsOrEmpty none⟩)⟩,
       ⟨[⟨1, "Laptop", 75000, 5, jsOrEmpty none⟩], 2⟩,
       [⟨[⟨"id", .int, .vstr "1"⟩], selectByIdSql⟩]⟩ :=
  post_then_get_roundtrip ⟨[], 1⟩ "Laptop" 75000 5 none "1"
    (by decide) (by decide) (by decide) (by intro r hr; cases hr) (by decide)

/-- C8: when the database client raises an error on query execution, every
handler sends exactly one response, a 500 whose body is the error message
verbatim, after submitting exactly one query (no retry), and the store is
untouched. -/
theorem store_error_yields_500_once (e : DbError) (exec : Exec)
    (hfail : ∀ q db0, exec q db0 = .error e)
    (db : Store) (idStr : String) (nm : String) (pr qt : Int) (bd : Option String)
    (hn : nm ≠ "") (hp : pr ≠ 0) (hq : qt ≠ 0) :
    getAllProducts exec (some ()) db =
      ⟨⟨500, .text e.message⟩, db, [⟨[], selectAllSql⟩]⟩ ∧
    getProductById exec (some ()) db idStr =
      ⟨⟨500, .text e.message⟩, db, [⟨[⟨"id", .int, .vstr idStr⟩], selectByIdSql⟩]⟩ ∧
    createProduct exec (some ()) db ⟨some nm, some pr, some qt, bd⟩ =
      ⟨⟨500, .text e.message⟩, db, [insertQuery nm pr qt (jsOrEmpty bd)]⟩ ∧
    updateProduct exec (some ()) db idStr ⟨some nm, some pr, some qt, bd⟩ =
      ⟨⟨500, .text e.message⟩, db, [updateQuery idStr nm pr qt (jsOrEmpty bd)]⟩ ∧
    deleteProduct exec (some ()) db idStr =
      ⟨⟨500, .text e.message⟩, db, [⟨[⟨"id", .int, .vstr idStr⟩], deleteSql⟩]⟩ := by
  have hcond : (nm == "" || pr == 0 || qt == 0) = false := by simp [hn, hp, hq]
  refine ⟨?_, ?_, ?_, ?_, ?_⟩
  · unfold getAllProducts
    dsimp only
    rw [hfail]
  · unfold getProductById
    dsimp only
    rw [hfail]
  · unfold createProduct
    dsimp only
    rw [if_neg (by simp [hcond])]
    rw [hfail]
    rfl
  · unfold updateProduct
    dsimp only
    rw [if_neg (by simp [hcond])]
    rw [hfail]
    rfl
  · unfold deleteProduct
    dsimp only
    rw [hfail]

/-- Witness for `store_error_yields_500_once` with an always-failing client
and a valid body. -/
theorem store_error_yields_500_once_witness :
    getAllProducts (fun _ _ => .error ⟨"connection lost"⟩) (some ()) ⟨[], 1⟩ =
      ⟨⟨500, .text "connection lost"⟩, ⟨[], 1⟩, [⟨[], selectAllSql⟩]⟩ ∧
    getProductById (fun _ _ => .error ⟨"connection lost"⟩) (some ()) ⟨[], 1⟩ "1" =
      ⟨⟨500, .text "connection lost"⟩, ⟨[], 1⟩,
       [⟨[⟨"id", .int, .vstr "1"⟩], selectByIdSql⟩]⟩ ∧
    createProduct (fun _ _ => .error ⟨"connection lost"⟩) (some ()) ⟨[], 1⟩
        ⟨some "Laptop", some 75000, some 5, none⟩ =
      ⟨⟨500, .text "connection lost"⟩, ⟨[], 1⟩,
       [insertQuery "Laptop" 75000 5 (jsOrEmpty none)]⟩ ∧
    updateProduct (fun _ _ => .error ⟨"connection lost"⟩) (some ()) ⟨[], 1⟩ "1"
        ⟨some "Laptop", some 75000, some 5, none⟩ =
      ⟨⟨500, .text "connection lost"⟩, ⟨[], 1⟩,
       [updateQuery "1" "Laptop" 75000 5 (jsOrEmpty none)]⟩ ∧
    deleteProduct (fun _ _ => .error ⟨"connection lost"⟩) (some ()) ⟨[], 1⟩ "1" =
      ⟨⟨500, .text "connection lost"⟩, ⟨[], 1⟩,
       [⟨[⟨"id", .int, .vstr "1"⟩], deleteSql⟩]⟩ :=
  store_error_yields_500_once ⟨"connection lost"⟩ (fun _ _ => .error ⟨"connection lost"⟩)
    (fun _ _ => rfl) ⟨[], 1⟩ "1" "Laptop" 75000 5 none
    (by decide) (by decide) (by decide)

/-- Witness for `pool_failure_fulfills_undefined_then_500` with a valid body
and the failed-connection (`none`) handle. -/
theorem pool_failure_fulfills_undefined_then_500_witness :
    createProduct runQuery none ⟨[], 1⟩ ⟨some "Laptop", some 75000, some 5, none⟩ =
      ⟨⟨500, .text undefinedRequestError.message⟩, ⟨[], 1⟩, []⟩ ∧
    updateProduct runQuery none ⟨[], 1⟩ "1" ⟨some "Laptop", some 75000, some 5, none⟩ =
      ⟨⟨500, .text undefinedRequestError.message⟩, ⟨[], 1⟩, []⟩ :=
  pool_failure_fulfills_undefined_then_500.2.2.2.2.2 runQuery ⟨[], 1⟩ "1"
    "Laptop" 75000 5 none (by decide) (by decide) (by decide)

end NodeSqlApi
